import Mathlib

/-!
Shallow embedding of `pkg/kubelet/kubeletconfig/controller.go`: the dynamic
kubelet-configuration controller. The embedding models the controller's own
logic (Bootstrap, loadLocalConfig, loadAssignedConfig, loadLastKnownGoodConfig,
inTrial, graduateAssignedToLastKnownGood) faithfully; its collaborators (the
checkpoint store, the config-file loader, the validator, the status package's
string constants) are external packages whose observable results are carried
as explicit state / parameters.
-/

namespace KubeletConfig

/-- Errors are opaque messages, as Go `error` values are here. -/
abbrev Err := String

/-- Configuration-version identifiers, as returned by `RemoteConfigSource.UID()`. -/
abbrev UID := String

/-- `checkpoint.RemoteConfigSource`: an immutable reference to a remote
configuration version, observed by the controller only through `UID()`. -/
structure RemoteConfigSource where
  uid : UID
deriving DecidableEq, Repr

/-- `kubeletconfig.KubeletConfiguration`: opaque to the controller except for
the `ConfigTrialDuration.Duration` field read in `Bootstrap`; `payload`
stands for the rest of the (opaque) configuration content. -/
structure KubeletConfiguration where
  configTrialDuration : Int
  payload : Int
deriving DecidableEq, Repr

/-- A checkpoint as the controller observes it: `Parse()` yields a
configuration or a parse error. -/
structure Checkpoint where
  parseResult : Except Err KubeletConfiguration
deriving Repr

/-- `Checkpoint.Parse()`. -/
def Checkpoint.parse (c : Checkpoint) : Except Err KubeletConfiguration :=
  c.parseResult

/-- The checkpoint store (`store.Store`) as observed by the controller: the
result of each read operation, the error behaviour of `Initialize` and
`SetLastKnownGood`, and the persisted last-known-good pointer (which
`SetLastKnownGood` overwrites). Times are integers. -/
structure Store where
  currentRes : Except Err (Option RemoteConfigSource)
  lastKnownGoodRes : Except Err (Option RemoteConfigSource)
  loadRes : UID → Except Err Checkpoint
  currentModifiedRes : Except Err Int
  initErr : Option Err
  setLastKnownGoodErr : Option Err

/-- `Store.Current()`. -/
def Store.current (s : Store) : Except Err (Option RemoteConfigSource) :=
  s.currentRes

/-- `Store.LastKnownGood()`. -/
def Store.lastKnownGood (s : Store) : Except Err (Option RemoteConfigSource) :=
  s.lastKnownGoodRes

/-- `Store.Load(uid)`. -/
def Store.load (s : Store) (uid : UID) : Except Err Checkpoint :=
  s.loadRes uid

/-- `Store.CurrentModified()`. -/
def Store.currentModified (s : Store) : Except Err Int :=
  s.currentModifiedRes

/-- `Store.SetLastKnownGood(source)`: fails with the store's configured write
error, otherwise persists the given pointer value (possibly absent). -/
def Store.setLastKnownGood (s : Store) (v : Option RemoteConfigSource) :
    Except Err Store :=
  match s.setLastKnownGoodErr with
  | some e => .error e
  | none => .ok { s with lastKnownGoodRes := .ok v }

/-- `validation.ValidateKubeletConfiguration`: an external pure function;
`none` means the configuration is valid. -/
abbrev Validator := KubeletConfiguration → Option Err

/-- `apiv1.ConditionStatus` restricted to the values the controller writes. -/
inductive ConditionStatus where
  | conditionTrue
  | conditionFalse
  | conditionUnknown
deriving DecidableEq, Repr

/-- The in-memory ConfigOK condition written by `configOK.Set(message, reason, status)`. -/
structure ConfigOKCondition where
  message : String
  reason : String
  status : ConditionStatus
deriving DecidableEq, Repr

/-- The `Controller` struct. `fileLoader` is `none` when no kubelet config
file path was given, otherwise it carries the result its `Load()` returns.
`configOK` is `none` until the first `Set`. -/
structure Controller where
  dynamicConfig : Bool
  defaultConfig : KubeletConfiguration
  fileLoader : Option (Except Err KubeletConfiguration)
  checkpointStore : Store
  configOK : Option ConfigOKCondition

/-- Modelled from the spec: the `status` package's reason constant for
"current pointer absent, using local config" is not under src; the spec names
it `local-ok`. -/
def curLocalOkayReason : String := "local-ok"

/-- Modelled from the spec: the `status` package's success reason for a remote
assigned config (`status.CurRemoteOkayReason`), not under src. -/
def curRemoteOkayReason : String := "remote-ok"

/-- Modelled from the spec: `status.CurFailLoadReasonFmt` applied to a UID;
the spec gives `load-failed:<uid>`. -/
def curFailLoadReason (uid : String) : String := "load-failed:" ++ uid

/-- Modelled from the spec: `status.CurFailParseReasonFmt` applied to a UID;
the spec gives `parse-failed:<uid>`. -/
def curFailParseReason (uid : String) : String := "parse-failed:" ++ uid

/-- Modelled from the spec: `status.CurFailValidateReasonFmt` applied to a
UID; the spec gives `validate-failed:<uid>`. -/
def curFailValidateReason (uid : String) : String := "validate-failed:" ++ uid

/-- Modelled from the spec: `status.LkgFailLoadReasonFmt` applied to a UID
(used only inside last-known-good error messages). -/
def lkgFailLoadReason (uid : String) : String := "lkg-load-failed:" ++ uid

/-- Modelled from the spec: `status.LkgFailParseReasonFmt` applied to a UID. -/
def lkgFailParseReason (uid : String) : String := "lkg-parse-failed:" ++ uid

/-- Modelled from the spec: `status.LkgFailValidateReasonFmt` applied to a UID. -/
def lkgFailValidateReason (uid : String) : String := "lkg-validate-failed:" ++ uid

/-- Modelled from the spec: `status.NotDynamicLocalMessage`. -/
def notDynamicLocalMessage : String := "using local config, dynamic config disabled"

/-- Modelled from the spec: `status.NotDynamicLocalReason`. -/
def notDynamicLocalReason : String := "dynamic-disabled"

/-- Modelled from the spec: `status.CurLocalMessage`. -/
def curLocalMessage : String := "using current (local)"

/-- Modelled from the spec: `status.CurRemoteMessageFmt` applied to a UID. -/
def curRemoteMessage (uid : String) : String := "using current:" ++ uid

/-- Modelled from the spec: `status.LkgLocalMessage`. -/
def lkgLocalMessage : String := "using last-known-good (local)"

/-- Modelled from the spec: `status.LkgRemoteMessageFmt` applied to a UID. -/
def lkgRemoteMessage (uid : String) : String := "using last-known-good:" ++ uid

/-- The four-valued return of `loadAssignedConfig`: in the source every
return is either `err == nil` with a non-nil config, or `err != nil` with a
nil config; both carry the source record (nil on a `Current()` read failure)
and the status reason. -/
inductive AssignedResult where
  | ok (cfg : KubeletConfiguration) (src : Option RemoteConfigSource) (reason : String)
  | fail (src : Option RemoteConfigSource) (reason : String) (err : Err)
deriving DecidableEq, Repr

/-- The three-valued return of `loadLastKnownGoodConfig`. -/
inductive LkgResult where
  | ok (cfg : KubeletConfiguration) (src : Option RemoteConfigSource)
  | fail (src : Option RemoteConfigSource) (err : Err)
deriving DecidableEq, Repr

/-- `Controller.loadLocalConfig`: validate the defaults; when a file loader
is configured, load and validate the file config and return it, otherwise
return the defaults. -/
def loadLocalConfig (validate : Validator) (cc : Controller) :
    Except Err KubeletConfiguration :=
  match validate cc.defaultConfig with
  | some e =>
    .error ("combination of defaults and flags failed validation, error: " ++ e)
  | none =>
    match cc.fileLoader with
    | some loadResult =>
      match loadResult with
      | .error e => .error e
      | .ok kc =>
        match validate kc with
        | some e =>
          .error ("failed to validate the Kubelet config file, error: " ++ e)
        | none => .ok kc
    | none => .ok cc.defaultConfig

/-- `Controller.loadAssignedConfig`: resolve the store's `current` pointer;
an absent pointer means the (pre-validated) local config is assigned. -/
def loadAssignedConfig (validate : Validator) (s : Store)
    (localCfg : KubeletConfiguration) : AssignedResult :=
  match s.current with
  | .error e => .fail none (curFailLoadReason "unknown") e
  | .ok none => .ok localCfg none curLocalOkayReason
  | .ok (some src) =>
    match s.load src.uid with
    | .error e => .fail (some src) (curFailLoadReason src.uid) e
    | .ok cp =>
      match cp.parse with
      | .error e => .fail (some src) (curFailParseReason src.uid) e
      | .ok cur =>
        match validate cur with
        | some e => .fail (some src) (curFailValidateReason src.uid) e
        | none => .ok cur (some src) curRemoteOkayReason

/-- `Controller.loadLastKnownGoodConfig`: resolve the store's
`last-known-good` pointer; every failure is folded into the returned error. -/
def loadLastKnownGoodConfig (validate : Validator) (s : Store)
    (localCfg : KubeletConfiguration) : LkgResult :=
  match s.lastKnownGood with
  | .error e =>
    .fail none ("unable to determine last-known-good config, error: " ++ e)
  | .ok none => .ok localCfg none
  | .ok (some src) =>
    match s.load src.uid with
    | .error e =>
      .fail (some src) (lkgFailLoadReason src.uid ++ ", error: " ++ e)
    | .ok cp =>
      match cp.parse with
      | .error e =>
        .fail (some src) (lkgFailParseReason src.uid ++ ", error: " ++ e)
      | .ok lkg =>
        match validate lkg with
        | some e =>
          .fail (some src) (lkgFailValidateReason src.uid ++ ", error: " ++ e)
        | none => .ok lkg (some src)

/-- `Controller.initializeDynamicConfigDir`: delegates to `Store.Initialize`. -/
def initDynamicConfigDir (s : Store) : Option Err :=
  s.initErr

/-- `Controller.inTrial(trialDur)`: elapsed time since the `current` pointer
was last modified does not exceed the trial duration. `now` replaces
`time.Now()`. -/
def inTrial (s : Store) (now : Int) (trialDur : Int) : Except Err Bool :=
  match s.currentModified with
  | .error e => .error e
  | .ok t => .ok (decide (now - t ≤ trialDur))

/-- `Controller.graduateAssignedToLastKnownGood`: read the `current` pointer
and write its value (possibly absent) onto the `last-known-good` pointer. -/
def graduateAssignedToLastKnownGood (s : Store) : Except Err Store :=
  match s.current with
  | .error e => .error e
  | .ok cur => s.setLastKnownGood cur

/-- `Controller.Bootstrap`: the linear fallback
local → assigned → last-known-good → fatal, with the trial-promotion rule on
the assigned success path. Returns the post-state of the controller (its
ConfigOK condition and checkpoint store) together with the Go function's
`(config, error)` return. -/
def Bootstrap (validate : Validator) (now : Int) (cc : Controller) :
    Controller × Except Err KubeletConfiguration :=
  match loadLocalConfig validate cc with
  | .error e => (cc, .error e)
  | .ok localCfg =>
    if !cc.dynamicConfig then
      let cond : ConfigOKCondition :=
        ⟨notDynamicLocalMessage, notDynamicLocalReason, .conditionTrue⟩
      ({ cc with configOK := some cond }, .ok localCfg)
    else
      match initDynamicConfigDir cc.checkpointStore with
      | some e => (cc, .error e)
      | none =>
        match loadAssignedConfig validate cc.checkpointStore localCfg with
        | .ok assigned curSource reason =>
          let cond : ConfigOKCondition :=
            match curSource with
            | some src => ⟨curRemoteMessage src.uid, reason, .conditionTrue⟩
            | none => ⟨curLocalMessage, reason, .conditionTrue⟩
          let cc1 : Controller := { cc with configOK := some cond }
          let cc2 : Controller :=
            match inTrial cc1.checkpointStore now assigned.configTrialDuration with
            | .error _ => cc1
            | .ok true => cc1
            | .ok false =>
              match graduateAssignedToLastKnownGood cc1.checkpointStore with
              | .error _ => cc1
              | .ok s => { cc1 with checkpointStore := s }
          (cc2, .ok assigned)
        | .fail _curSource reason _err =>
          match loadLastKnownGoodConfig validate cc.checkpointStore localCfg with
          | .fail _ e => (cc, .error e)
          | .ok lkg lkgSource =>
            let cond : ConfigOKCondition :=
              match lkgSource with
              | some src => ⟨lkgRemoteMessage src.uid, reason, .conditionFalse⟩
              | none => ⟨lkgLocalMessage, reason, .conditionFalse⟩
            ({ cc with configOK := some cond }, .ok lkg)

/-- `loadAssignedConfig` as a state-threading method on the controller, the
shape of the Go method `cc.loadAssignedConfig`: the returned controller is
the post-state, which the source leaves untouched (the method only reads). -/
def loadAssignedConfigS (validate : Validator) (cc : Controller)
    (localCfg : KubeletConfiguration) : AssignedResult × Controller :=
  (loadAssignedConfig validate cc.checkpointStore localCfg, cc)

/-- Modelled from the spec: the pending-change signal. The source under src
only declares `pendingConfigSource chan bool` with capacity 1 (controller.go
lines 62-63 and 101-102); the non-blocking send and the consuming receive
live outside src. Per the spec, a send on a full slot is dropped silently and
a consume empties the slot. The slot holds at most one value. -/
abbrev PendingSignal := Option Bool

/-- Modelled from the spec: the non-blocking send (`select`/`default` write of
`true` into the capacity-1 channel): fills an empty slot, leaves a full one
unchanged. -/
def pokePendingSignal (s : PendingSignal) : PendingSignal :=
  match s with
  | none => some true
  | some v => some v

/-- Modelled from the spec: the non-blocking consume: empties the slot and
reports whether a value was pending. -/
def consumePendingSignal (s : PendingSignal) : PendingSignal × Bool :=
  match s with
  | some _ => (none, true)
  | none => (none, false)

/-- `n` consecutive raises of the pending-change signal. -/
def raiseN (n : Nat) (s : PendingSignal) : PendingSignal :=
  match n with
  | 0 => s
  | n + 1 => raiseN n (pokePendingSignal s)

/-- The condition `Bootstrap` publishes on the assigned-success path, as a
function of the resolved source record and reason. -/
def assignedOkCond (srcOpt : Option RemoteConfigSource) (reason : String) :
    ConfigOKCondition :=
  match srcOpt with
  | some src => ⟨curRemoteMessage src.uid, reason, .conditionTrue⟩
  | none => ⟨curLocalMessage, reason, .conditionTrue⟩

/-- The condition `Bootstrap` publishes on the last-known-good fallback path:
the last-known-good identity with the original assigned-failure reason,
status false. -/
def lkgFallbackCond (srcOpt : Option RemoteConfigSource) (reason : String) :
    ConfigOKCondition :=
  match srcOpt with
  | some src => ⟨lkgRemoteMessage src.uid, reason, .conditionFalse⟩
  | none => ⟨lkgLocalMessage, reason, .conditionFalse⟩

/-- The store after the trial-promotion step of `Bootstrap`: unchanged while
in trial or when the trial check or the graduation write fails; otherwise the
store left by `graduateAssignedToLastKnownGood`. -/
def postTrialStore (s : Store) (now : Int) (trialDur : Int) : Store :=
  match inTrial s now trialDur with
  | .error _ => s
  | .ok true => s
  | .ok false =>
    match graduateAssignedToLastKnownGood s with
    | .error _ => s
    | .ok s2 => s2

/-- On the assigned-success path, `Bootstrap` returns the assigned config,
publishes the positive condition for the resolved source, and its only state
change beyond the condition is the trial-promotion step on the store. -/
theorem bootstrap_assigned_ok_eq (validate : Validator) (now : Int)
    (cc : Controller) (localCfg assigned : KubeletConfiguration)
    (srcOpt : Option RemoteConfigSource) (reason : String)
    (hdyn : cc.dynamicConfig = true)
    (hlocal : loadLocalConfig validate cc = .ok localCfg)
    (hinit : cc.checkpointStore.initErr = none)
    (hA : loadAssignedConfig validate cc.checkpointStore localCfg =
      .ok assigned srcOpt reason) :
    Bootstrap validate now cc =
      ({ cc with
          configOK := some (assignedOkCond srcOpt reason)
          checkpointStore :=
            postTrialStore cc.checkpointStore now assigned.configTrialDuration },
       .ok assigned) := by
  unfold Bootstrap initDynamicConfigDir postTrialStore assignedOkCond
  cases hT : inTrial cc.checkpointStore now assigned.configTrialDuration with
  | error e => simp [hlocal, hdyn, hinit, hA, hT]
  | ok b =>
    cases b with
    | true => simp [hlocal, hdyn, hinit, hA, hT]
    | false =>
      cases hG : graduateAssignedToLastKnownGood cc.checkpointStore with
      | error e => simp [hlocal, hdyn, hinit, hA, hT, hG]
      | ok s2 => simp [hlocal, hdyn, hinit, hA, hT, hG]

/-- On the assigned-failure path, `Bootstrap` falls through to
last-known-good: a last-known-good failure is returned as a fatal error with
the controller untouched, and a success returns the last-known-good config
with the negative fallback condition carrying the original reason. -/
theorem bootstrap_assigned_fail_eq (validate : Validator) (now : Int)
    (cc : Controller) (localCfg : KubeletConfiguration)
    (srcOpt : Option RemoteConfigSource) (reason : String) (err : Err)
    (hdyn : cc.dynamicConfig = true)
    (hlocal : loadLocalConfig validate cc = .ok localCfg)
    (hinit : cc.checkpointStore.initErr = none)
    (hA : loadAssignedConfig validate cc.checkpointStore localCfg =
      .fail srcOpt reason err) :
    Bootstrap validate now cc =
      (match loadLastKnownGoodConfig validate cc.checkpointStore localCfg with
       | .fail _ e => (cc, .error e)
       | .ok lkg lkgSource =>
         ({ cc with configOK := some (lkgFallbackCond lkgSource reason) }, .ok lkg)) := by
  unfold Bootstrap initDynamicConfigDir lkgFallbackCond
  cases hL : loadLastKnownGoodConfig validate cc.checkpointStore localCfg with
  | fail src e => simp [hlocal, hdyn, hinit, hA, hL]
  | ok lkg lkgSource =>
    cases lkgSource with
    | none => simp [hlocal, hdyn, hinit, hA, hL]
    | some src => simp [hlocal, hdyn, hinit, hA, hL]

/-! ### Concrete fixtures used by the witness theorems -/

/-- A concrete validator: a configuration is valid when its payload is
nonnegative. -/
def exampleValidate : Validator :=
  fun c => if c.payload < 0 then some "payload negative" else none

/-- A valid local (default) configuration. -/
def goodLocal : KubeletConfiguration := ⟨10, 1⟩

/-- A valid remote configuration. -/
def remoteCfg : KubeletConfiguration := ⟨10, 2⟩

/-- A valid last-known-good configuration. -/
def lkgCfg : KubeletConfiguration := ⟨10, 3⟩

/-- The source record the `current` pointer holds in the fixtures. -/
def srcCur : RemoteConfigSource := ⟨"cur-uid"⟩

/-- The source record the `last-known-good` pointer holds in the fixtures. -/
def srcLkg : RemoteConfigSource := ⟨"lkg-uid"⟩

/-- The condition published on the dynamic-disabled short-circuit. -/
def notDynamicCond : ConfigOKCondition :=
  ⟨notDynamicLocalMessage, notDynamicLocalReason, .conditionTrue⟩

/-- A store with both pointers absent and no errors. -/
def emptyStore : Store :=
  { currentRes := .ok none
    lastKnownGoodRes := .ok none
    loadRes := fun _ => .error "checkpoint not found"
    currentModifiedRes := .ok 0
    initErr := none
    setLastKnownGoodErr := none }

/-- A controller with dynamic config enabled, an invalid default config and
no config file. -/
def badLocalController : Controller :=
  { dynamicConfig := true
    defaultConfig := ⟨10, -1⟩
    fileLoader := none
    checkpointStore := emptyStore
    configOK := none }

/-! ### C3: invalid local configuration is fatal -/

/-- C3: whenever the local configuration fails validation — the defaults, or
the loaded config file when one is configured — `Bootstrap` returns an error
and no configuration, leaves the controller state untouched, and does so for
every checkpoint-store state: no store access or fallback stage occurs. -/
theorem bootstrap_local_invalid_fatal (validate : Validator) (now : Int)
    (cc : Controller) (e : Err)
    (h : validate cc.defaultConfig = some e ∨
      (validate cc.defaultConfig = none ∧
        ∃ kc, cc.fileLoader = some (.ok kc) ∧ validate kc = some e)) :
    ∃ msg, loadLocalConfig validate cc = .error msg ∧
      Bootstrap validate now cc = (cc, .error msg) ∧
      ∀ s : Store, Bootstrap validate now { cc with checkpointStore := s } =
        ({ cc with checkpointStore := s }, .error msg) := by
  have hloc : ∃ msg, loadLocalConfig validate cc = .error msg := by
    rcases h with hd | ⟨hd, kc, hf, hk⟩
    · exact ⟨_, by unfold loadLocalConfig; rw [hd]⟩
    · refine ⟨"failed to validate the Kubelet config file, error: " ++ e, ?_⟩
      unfold loadLocalConfig
      rw [hd, hf]
      simp only [hk]
  obtain ⟨msg, hmsg⟩ := hloc
  refine ⟨msg, hmsg, ?_, ?_⟩
  · unfold Bootstrap
    rw [hmsg]
  · intro s
    have h2 : loadLocalConfig validate { cc with checkpointStore := s } =
        .error msg := hmsg
    unfold Bootstrap
    rw [h2]

/-- Witness for C3 at a concrete controller whose default config fails
validation. -/
theorem bootstrap_local_invalid_fatal_witness :
    exampleValidate badLocalController.defaultConfig = some "payload negative" ∧
    ∃ msg, loadLocalConfig exampleValidate badLocalController = .error msg ∧
      Bootstrap exampleValidate 0 badLocalController =
        (badLocalController, .error msg) := by
  refine ⟨by rfl, ?_⟩
  obtain ⟨msg, h1, h2, _⟩ := bootstrap_local_invalid_fatal exampleValidate 0
    badLocalController "payload negative" (Or.inl (by rfl))
  exact ⟨msg, h1, h2⟩

/-! ### C8: dynamic config disabled -/

/-- C8: with dynamic configuration disabled and a valid local configuration,
`Bootstrap` returns the local configuration without error, publishes the
positive "using local, dynamic disabled" condition, and neither reads nor
writes the checkpoint store: the store field passes through untouched and the
outcome is the same for every store state. -/
theorem bootstrap_dynamic_disabled (validate : Validator) (now : Int)
    (cc : Controller) (localCfg : KubeletConfiguration)
    (hdyn : cc.dynamicConfig = false)
    (hlocal : loadLocalConfig validate cc = .ok localCfg) :
    (Bootstrap validate now cc).2 = .ok localCfg ∧
    (Bootstrap validate now cc).1.configOK =
      some ⟨notDynamicLocalMessage, notDynamicLocalReason, .conditionTrue⟩ ∧
    (Bootstrap validate now cc).1.checkpointStore = cc.checkpointStore ∧
    ∀ s : Store,
      (Bootstrap validate now { cc with checkpointStore := s }).2 = .ok localCfg ∧
      (Bootstrap validate now { cc with checkpointStore := s }).1.checkpointStore = s := by
  have hmain : Bootstrap validate now cc =
      ({ cc with configOK := some notDynamicCond }, .ok localCfg) := by
    unfold Bootstrap
    rw [hlocal]
    simp [hdyn, notDynamicCond]
  refine ⟨by rw [hmain], by rw [hmain]; rfl, by rw [hmain], ?_⟩
  intro s
  have hl : loadLocalConfig validate { cc with checkpointStore := s } =
      .ok localCfg := hlocal
  have hs : Bootstrap validate now { cc with checkpointStore := s } =
      ({ { cc with checkpointStore := s } with configOK := some notDynamicCond },
       .ok localCfg) := by
    unfold Bootstrap
    rw [hl]
    simp [hdyn, notDynamicCond]
  exact ⟨by rw [hs], by rw [hs]⟩

/-- A controller with dynamic config disabled and a valid default config. -/
def disabledController : Controller :=
  { dynamicConfig := false
    defaultConfig := goodLocal
    fileLoader := none
    checkpointStore := emptyStore
    configOK := none }

/-- Witness for C8 at a concrete controller with dynamic config disabled. -/
theorem bootstrap_dynamic_disabled_witness :
    disabledController.dynamicConfig = false ∧
    loadLocalConfig exampleValidate disabledController = .ok goodLocal ∧
    (Bootstrap exampleValidate 0 disabledController).2 = .ok goodLocal ∧
    (Bootstrap exampleValidate 0 disabledController).1.configOK =
      some ⟨notDynamicLocalMessage, notDynamicLocalReason, .conditionTrue⟩ :=
  ⟨by rfl, by rfl,
   (bootstrap_dynamic_disabled exampleValidate 0 disabledController goodLocal
     (by rfl) (by rfl)).1,
   (bootstrap_dynamic_disabled exampleValidate 0 disabledController goodLocal
     (by rfl) (by rfl)).2.1⟩

/-- A controller with dynamic config enabled, a valid default config, no
config file, and the given store. -/
def dynController (s : Store) : Controller :=
  { dynamicConfig := true
    defaultConfig := goodLocal
    fileLoader := none
    checkpointStore := s
    configOK := none }

/-! ### C6: absent current pointer resolves to the local config -/

/-- C6: with a valid local configuration, dynamic config enabled, a store
that initializes, and an absent `current` pointer, `loadAssignedConfig`
returns the local configuration with an absent source record, the local-ok
reason and no error, and `Bootstrap` returns the local configuration with a
positive condition carrying that reason. -/
theorem bootstrap_current_absent_local_ok (validate : Validator) (now : Int)
    (cc : Controller) (localCfg : KubeletConfiguration)
    (hdyn : cc.dynamicConfig = true)
    (hlocal : loadLocalConfig validate cc = .ok localCfg)
    (hinit : cc.checkpointStore.initErr = none)
    (hcur : cc.checkpointStore.currentRes = .ok none) :
    loadAssignedConfig validate cc.checkpointStore localCfg =
      .ok localCfg none curLocalOkayReason ∧
    (Bootstrap validate now cc).2 = .ok localCfg ∧
    (Bootstrap validate now cc).1.configOK =
      some ⟨curLocalMessage, curLocalOkayReason, .conditionTrue⟩ := by
  have hA : loadAssignedConfig validate cc.checkpointStore localCfg =
      .ok localCfg none curLocalOkayReason := by
    unfold loadAssignedConfig Store.current
    rw [hcur]
  have hB := bootstrap_assigned_ok_eq validate now cc localCfg localCfg none
    curLocalOkayReason hdyn hlocal hinit hA
  exact ⟨hA, by rw [hB], by rw [hB]; rfl⟩

/-- Witness for C6 at a concrete controller whose store has no pointers. -/
theorem bootstrap_current_absent_local_ok_witness :
    (dynController emptyStore).dynamicConfig = true ∧
    loadLocalConfig exampleValidate (dynController emptyStore) = .ok goodLocal ∧
    (dynController emptyStore).checkpointStore.initErr = none ∧
    (dynController emptyStore).checkpointStore.currentRes = .ok none ∧
    loadAssignedConfig exampleValidate (dynController emptyStore).checkpointStore goodLocal =
      .ok goodLocal none curLocalOkayReason ∧
    (Bootstrap exampleValidate 0 (dynController emptyStore)).2 = .ok goodLocal ∧
    (Bootstrap exampleValidate 0 (dynController emptyStore)).1.configOK =
      some ⟨curLocalMessage, curLocalOkayReason, .conditionTrue⟩ := by
  refine ⟨rfl, rfl, rfl, rfl, ?_⟩
  have h := bootstrap_current_absent_local_ok exampleValidate 0
    (dynController emptyStore) goodLocal rfl rfl rfl rfl
  exact ⟨h.1, h.2.1, h.2.2⟩

/-! ### C4: trial promotion -/

/-- C4: on a successful remote assigned-config resolution with `current`
holding UID `X` and modification time `t`, `Bootstrap` returns the assigned
configuration unconditionally (so also when the graduation write fails);
while `now − t ≤ D` (the assigned config's trial duration) the
last-known-good pointer is unchanged; once `now − t > D` and the store write
succeeds the last-known-good pointer equals `current`'s value `X`; and a
failing graduation write leaves the pointer unchanged. -/
theorem bootstrap_trial_promotion (validate : Validator) (now : Int)
    (cc : Controller) (localCfg assigned : KubeletConfiguration) (t : Int)
    (src : RemoteConfigSource) (cp : Checkpoint)
    (hdyn : cc.dynamicConfig = true)
    (hlocal : loadLocalConfig validate cc = .ok localCfg)
    (hinit : cc.checkpointStore.initErr = none)
    (hcur : cc.checkpointStore.currentRes = .ok (some src))
    (hload : cc.checkpointStore.loadRes src.uid = .ok cp)
    (hparse : cp.parseResult = .ok assigned)
    (hvalid : validate assigned = none)
    (hmod : cc.checkpointStore.currentModifiedRes = .ok t) :
    (Bootstrap validate now cc).2 = .ok assigned ∧
    (now - t ≤ assigned.configTrialDuration →
      (Bootstrap validate now cc).1.checkpointStore.lastKnownGoodRes =
        cc.checkpointStore.lastKnownGoodRes) ∧
    (assigned.configTrialDuration < now - t →
      cc.checkpointStore.setLastKnownGoodErr = none →
      (Bootstrap validate now cc).1.checkpointStore.lastKnownGoodRes =
        .ok (some src)) ∧
    (∀ e, cc.checkpointStore.setLastKnownGoodErr = some e →
      (Bootstrap validate now cc).1.checkpointStore.lastKnownGoodRes =
        cc.checkpointStore.lastKnownGoodRes) := by
  have hA : loadAssignedConfig validate cc.checkpointStore localCfg =
      .ok assigned (some src) curRemoteOkayReason := by
    unfold loadAssignedConfig Store.current Store.load Checkpoint.parse
    simp only [hcur, hload, hparse, hvalid]
  have hB := bootstrap_assigned_ok_eq validate now cc localCfg assigned
    (some src) curRemoteOkayReason hdyn hlocal hinit hA
  have hT : inTrial cc.checkpointStore now assigned.configTrialDuration =
      .ok (decide (now - t ≤ assigned.configTrialDuration)) := by
    unfold inTrial Store.currentModified
    rw [hmod]
  refine ⟨by rw [hB], ?_, ?_, ?_⟩
  · intro hle
    have hD : decide (now - t ≤ assigned.configTrialDuration) = true :=
      decide_eq_true hle
    have hP : postTrialStore cc.checkpointStore now assigned.configTrialDuration =
        cc.checkpointStore := by
      unfold postTrialStore
      simp only [hT, hD]
    rw [hB]
    simp only [hP]
  · intro hgt hset
    have hD : decide (now - t ≤ assigned.configTrialDuration) = false :=
      decide_eq_false (not_le.mpr hgt)
    have hG : graduateAssignedToLastKnownGood cc.checkpointStore =
        .ok { cc.checkpointStore with lastKnownGoodRes := .ok (some src) } := by
      unfold graduateAssignedToLastKnownGood Store.current Store.setLastKnownGood
      simp only [hcur, hset]
    have hP : postTrialStore cc.checkpointStore now assigned.configTrialDuration =
        { cc.checkpointStore with lastKnownGoodRes := .ok (some src) } := by
      unfold postTrialStore
      simp only [hT, hD, hG]
    rw [hB]
    simp only [hP]
  · intro e hset
    have hG : graduateAssignedToLastKnownGood cc.checkpointStore = .error e := by
      unfold graduateAssignedToLastKnownGood Store.current Store.setLastKnownGood
      simp only [hcur, hset]
    have hP : postTrialStore cc.checkpointStore now assigned.configTrialDuration =
        cc.checkpointStore := by
      unfold postTrialStore
      cases hd : decide (now - t ≤ assigned.configTrialDuration) with
      | true => simp only [hT, hd]
      | false => simp only [hT, hd, hG]
    rw [hB]
    simp only [hP]

/-- A store whose `current` points at `srcCur` with a valid checkpoint,
modification time `0`, an absent last-known-good pointer and no errors. -/
def trialStore : Store :=
  { currentRes := .ok (some srcCur)
    lastKnownGoodRes := .ok none
    loadRes := fun uid =>
      if uid = "cur-uid" then .ok ⟨.ok remoteCfg⟩ else .error "checkpoint not found"
    currentModifiedRes := .ok 0
    initErr := none
    setLastKnownGoodErr := none }

/-- Witness for C4: at time 100 (past the 10-unit trial of `remoteCfg`) the
assigned config is returned and last-known-good is promoted to `srcCur`; at
time 5 (inside the trial) the pointer stays absent. -/
theorem bootstrap_trial_promotion_witness :
    ((100 : Int) - 0 > remoteCfg.configTrialDuration ∧
      (Bootstrap exampleValidate 100 (dynController trialStore)).2 = .ok remoteCfg ∧
      (Bootstrap exampleValidate 100
        (dynController trialStore)).1.checkpointStore.lastKnownGoodRes =
          .ok (some srcCur)) ∧
    ((5 : Int) - 0 ≤ remoteCfg.configTrialDuration ∧
      (Bootstrap exampleValidate 5 (dynController trialStore)).2 = .ok remoteCfg ∧
      (Bootstrap exampleValidate 5
        (dynController trialStore)).1.checkpointStore.lastKnownGoodRes = .ok none) := by
  have h100 := bootstrap_trial_promotion exampleValidate 100
    (dynController trialStore) goodLocal remoteCfg 0 srcCur ⟨.ok remoteCfg⟩
    rfl rfl rfl rfl (by rfl) rfl rfl rfl
  have h5 := bootstrap_trial_promotion exampleValidate 5
    (dynController trialStore) goodLocal remoteCfg 0 srcCur ⟨.ok remoteCfg⟩
    rfl rfl rfl rfl (by rfl) rfl rfl rfl
  refine ⟨⟨by decide, h100.1, h100.2.2.1 (by decide) rfl⟩,
          ⟨by decide, h5.1, ?_⟩⟩
  have := h5.2.1 (by decide)
  simpa using this

/-! ### C10: graduation with an absent current pointer overwrites lkg -/

/-- C10: when the `current` pointer is absent (the local config resolves as
assigned) and the trial period of the local config has elapsed, `Bootstrap`
still graduates and copies the absent value onto the last-known-good
pointer, overwriting a previously set last-known-good source; the local
configuration is returned. -/
theorem bootstrap_graduation_overwrites_lkg (validate : Validator) (now : Int)
    (cc : Controller) (localCfg : KubeletConfiguration) (t : Int)
    (prevSrc : RemoteConfigSource)
    (hdyn : cc.dynamicConfig = true)
    (hlocal : loadLocalConfig validate cc = .ok localCfg)
    (hinit : cc.checkpointStore.initErr = none)
    (hcur : cc.checkpointStore.currentRes = .ok none)
    (hmod : cc.checkpointStore.currentModifiedRes = .ok t)
    (hgt : localCfg.configTrialDuration < now - t)
    (hset : cc.checkpointStore.setLastKnownGoodErr = none)
    (hprev : cc.checkpointStore.lastKnownGoodRes = .ok (some prevSrc)) :
    (Bootstrap validate now cc).2 = .ok localCfg ∧
    (Bootstrap validate now cc).1.checkpointStore.lastKnownGoodRes = .ok none ∧
    (Bootstrap validate now cc).1.checkpointStore.lastKnownGoodRes ≠
      cc.checkpointStore.lastKnownGoodRes := by
  have hA : loadAssignedConfig validate cc.checkpointStore localCfg =
      .ok localCfg none curLocalOkayReason := by
    unfold loadAssignedConfig Store.current
    rw [hcur]
  have hB := bootstrap_assigned_ok_eq validate now cc localCfg localCfg none
    curLocalOkayReason hdyn hlocal hinit hA
  have hT : inTrial cc.checkpointStore now localCfg.configTrialDuration =
      .ok (decide (now - t ≤ localCfg.configTrialDuration)) := by
    unfold inTrial Store.currentModified
    rw [hmod]
  have hD : decide (now - t ≤ localCfg.configTrialDuration) = false :=
    decide_eq_false (not_le.mpr hgt)
  have hG : graduateAssignedToLastKnownGood cc.checkpointStore =
      .ok { cc.checkpointStore with lastKnownGoodRes := .ok none } := by
    unfold graduateAssignedToLastKnownGood Store.current Store.setLastKnownGood
    simp only [hcur, hset]
  have hP : postTrialStore cc.checkpointStore now localCfg.configTrialDuration =
      { cc.checkpointStore with lastKnownGoodRes := .ok none } := by
    unfold postTrialStore
    simp only [hT, hD, hG]
  refine ⟨by rw [hB], by rw [hB]; simp only [hP], ?_⟩
  rw [hB]
  simp only [hP, hprev]
  simp

/-- A store with an absent `current` pointer but a previously set
last-known-good source. -/
def staleLkgStore : Store :=
  { currentRes := .ok none
    lastKnownGoodRes := .ok (some srcLkg)
    loadRes := fun _ => .error "checkpoint not found"
    currentModifiedRes := .ok 0
    initErr := none
    setLastKnownGoodErr := none }

/-- Witness for C10: at time 100, past `goodLocal`'s 10-unit trial, the
previously set last-known-good source `srcLkg` is overwritten with absent. -/
theorem bootstrap_graduation_overwrites_lkg_witness :
    goodLocal.configTrialDuration < (100 : Int) - 0 ∧
    (dynController staleLkgStore).checkpointStore.lastKnownGoodRes =
      .ok (some srcLkg) ∧
    (Bootstrap exampleValidate 100 (dynController staleLkgStore)).2 = .ok goodLocal ∧
    (Bootstrap exampleValidate 100
      (dynController staleLkgStore)).1.checkpointStore.lastKnownGoodRes = .ok none := by
  have h := bootstrap_graduation_overwrites_lkg exampleValidate 100
    (dynController staleLkgStore) goodLocal 0 srcLkg
    rfl rfl rfl rfl rfl (by decide) rfl rfl
  exact ⟨by decide, rfl, h.1, h.2.1⟩

/-- Every failure of `loadAssignedConfig` whose source record is present
carries a reason tagged with that source's UID, naming the failed stage. -/
theorem loadAssignedConfig_fail_tagged (validate : Validator) (s : Store)
    (localCfg : KubeletConfiguration) (src : RemoteConfigSource)
    (r : String) (e : Err)
    (h : loadAssignedConfig validate s localCfg = .fail (some src) r e) :
    r = curFailLoadReason src.uid ∨ r = curFailParseReason src.uid ∨
      r = curFailValidateReason src.uid := by
  unfold loadAssignedConfig Store.current Store.load Checkpoint.parse at h
  cases hc : s.currentRes with
  | error e2 => simp only [hc] at h; simp at h
  | ok o =>
    cases o with
    | none => simp only [hc] at h; simp at h
    | some src2 =>
      simp only [hc] at h
      cases hl : s.loadRes src2.uid with
      | error e2 =>
        simp only [hl, AssignedResult.fail.injEq, Option.some.injEq] at h
        obtain ⟨h1, h2, h3⟩ := h
        subst h1
        exact Or.inl h2.symm
      | ok cp =>
        simp only [hl] at h
        cases hp : cp.parseResult with
        | error e2 =>
          simp only [hp, AssignedResult.fail.injEq, Option.some.injEq] at h
          obtain ⟨h1, h2, h3⟩ := h
          subst h1
          exact Or.inr (Or.inl h2.symm)
        | ok c =>
          simp only [hp] at h
          cases hv : validate c with
          | none => simp only [hv] at h; simp at h
          | some e2 =>
            simp only [hv, AssignedResult.fail.injEq, Option.some.injEq] at h
            obtain ⟨h1, h2, h3⟩ := h
            subst h1
            exact Or.inr (Or.inr h2.symm)

/-! ### C1: fallback to last-known-good keeps the original failure reason -/

/-- C1: when the assigned config referenced by `current` fails to load,
parse or validate but last-known-good resolves, `Bootstrap` returns the
last-known-good configuration without error and publishes a negative
condition whose reason is exactly the assigned-stage failure reason, which is
tagged with the assigned source's UID. -/
theorem bootstrap_fallback_original_reason (validate : Validator) (now : Int)
    (cc : Controller) (localCfg lkg : KubeletConfiguration)
    (src : RemoteConfigSource) (lkgSource : Option RemoteConfigSource)
    (reason : String) (err : Err)
    (hdyn : cc.dynamicConfig = true)
    (hlocal : loadLocalConfig validate cc = .ok localCfg)
    (hinit : cc.checkpointStore.initErr = none)
    (hA : loadAssignedConfig validate cc.checkpointStore localCfg =
      .fail (some src) reason err)
    (hL : loadLastKnownGoodConfig validate cc.checkpointStore localCfg =
      .ok lkg lkgSource) :
    (Bootstrap validate now cc).2 = .ok lkg ∧
    (Bootstrap validate now cc).1.configOK =
      some (lkgFallbackCond lkgSource reason) ∧
    (lkgFallbackCond lkgSource reason).status = .conditionFalse ∧
    (lkgFallbackCond lkgSource reason).reason = reason ∧
    (reason = curFailLoadReason src.uid ∨ reason = curFailParseReason src.uid ∨
      reason = curFailValidateReason src.uid) := by
  have hB := bootstrap_assigned_fail_eq validate now cc localCfg (some src)
    reason err hdyn hlocal hinit hA
  simp only [hL] at hB
  refine ⟨by rw [hB], by rw [hB], ?_, ?_,
    loadAssignedConfig_fail_tagged validate cc.checkpointStore localCfg src
      reason err hA⟩
  · cases lkgSource <;> rfl
  · cases lkgSource <;> rfl

/-- A store whose `current` checkpoint fails to parse while the
last-known-good checkpoint is valid. -/
def parseFailStore : Store :=
  { currentRes := .ok (some srcCur)
    lastKnownGoodRes := .ok (some srcLkg)
    loadRes := fun uid =>
      if uid = "cur-uid" then .ok ⟨.error "parse boom"⟩
      else if uid = "lkg-uid" then .ok ⟨.ok lkgCfg⟩
      else .error "checkpoint not found"
    currentModifiedRes := .ok 0
    initErr := none
    setLastKnownGoodErr := none }

/-- Witness for C1: the assigned checkpoint fails to parse, last-known-good
resolves, and the published negative condition carries the parse-failure
reason tagged with the assigned UID. -/
theorem bootstrap_fallback_original_reason_witness :
    loadAssignedConfig exampleValidate parseFailStore goodLocal =
      .fail (some srcCur) (curFailParseReason "cur-uid") "parse boom" ∧
    loadLastKnownGoodConfig exampleValidate parseFailStore goodLocal =
      .ok lkgCfg (some srcLkg) ∧
    (Bootstrap exampleValidate 0 (dynController parseFailStore)).2 = .ok lkgCfg ∧
    (Bootstrap exampleValidate 0 (dynController parseFailStore)).1.configOK =
      some (lkgFallbackCond (some srcLkg) (curFailParseReason "cur-uid")) := by
  have h := bootstrap_fallback_original_reason exampleValidate 0
    (dynController parseFailStore) goodLocal lkgCfg srcCur (some srcLkg)
    (curFailParseReason "cur-uid") "parse boom" rfl rfl rfl (by rfl) (by rfl)
  exact ⟨by rfl, by rfl, h.1, h.2.1⟩

/-! ### C2: last-known-good failure is fatal -/

/-- C2: when the assigned config fails to resolve and last-known-good also
fails (including when the last-known-good pointer cannot be read),
`Bootstrap` returns the last-known-good stage's error and no configuration,
with the controller state untouched: no further fallback occurs. -/
theorem bootstrap_lkg_fail_fatal (validate : Validator) (now : Int)
    (cc : Controller) (localCfg : KubeletConfiguration)
    (srcOpt lkgSrcOpt : Option RemoteConfigSource) (reason : String)
    (err e2 : Err)
    (hdyn : cc.dynamicConfig = true)
    (hlocal : loadLocalConfig validate cc = .ok localCfg)
    (hinit : cc.checkpointStore.initErr = none)
    (hA : loadAssignedConfig validate cc.checkpointStore localCfg =
      .fail srcOpt reason err)
    (hL : loadLastKnownGoodConfig validate cc.checkpointStore localCfg =
      .fail lkgSrcOpt e2) :
    Bootstrap validate now cc = (cc, .error e2) := by
  have hB := bootstrap_assigned_fail_eq validate now cc localCfg srcOpt
    reason err hdyn hlocal hinit hA
  simp only [hL] at hB
  exact hB

/-- A store where both the `current` and the `last-known-good` checkpoints
fail to load. -/
def doubleFailStore : Store :=
  { currentRes := .ok (some srcCur)
    lastKnownGoodRes := .ok (some srcLkg)
    loadRes := fun _ => .error "io error"
    currentModifiedRes := .ok 0
    initErr := none
    setLastKnownGoodErr := none }

/-- Witness for C2: both stages fail to load, so `Bootstrap` returns the
last-known-good stage's error and no configuration. -/
theorem bootstrap_lkg_fail_fatal_witness :
    loadAssignedConfig exampleValidate doubleFailStore goodLocal =
      .fail (some srcCur) (curFailLoadReason "cur-uid") "io error" ∧
    loadLastKnownGoodConfig exampleValidate doubleFailStore goodLocal =
      .fail (some srcLkg) (lkgFailLoadReason "lkg-uid" ++ ", error: " ++ "io error") ∧
    Bootstrap exampleValidate 0 (dynController doubleFailStore) =
      (dynController doubleFailStore,
       .error (lkgFailLoadReason "lkg-uid" ++ ", error: " ++ "io error")) := by
  refine ⟨by rfl, by rfl, ?_⟩
  exact bootstrap_lkg_fail_fatal exampleValidate 0 (dynController doubleFailStore)
    goodLocal (some srcCur) (some srcLkg) (curFailLoadReason "cur-uid") "io error"
    (lkgFailLoadReason "lkg-uid" ++ ", error: " ++ "io error")
    rfl rfl rfl (by rfl) (by rfl)

/-! ### C7: failure reasons identify the stage and the UID -/

/-- C7: with `current` holding a source record, every resolver failure
reason names the stage that failed and is tagged with that source's UID:
checkpoint load failure yields the load-failure reason for the UID, parse
failure the parse-failure reason, and validation failure the
validation-failure reason. -/
theorem loadAssignedConfig_failure_reasons (validate : Validator) (s : Store)
    (localCfg : KubeletConfiguration) (src : RemoteConfigSource)
    (hcur : s.currentRes = .ok (some src)) :
    (∀ e, s.loadRes src.uid = .error e →
      loadAssignedConfig validate s localCfg =
        .fail (some src) (curFailLoadReason src.uid) e) ∧
    (∀ cp e, s.loadRes src.uid = .ok cp → cp.parseResult = .error e →
      loadAssignedConfig validate s localCfg =
        .fail (some src) (curFailParseReason src.uid) e) ∧
    (∀ cp c e, s.loadRes src.uid = .ok cp → cp.parseResult = .ok c →
      validate c = some e →
      loadAssignedConfig validate s localCfg =
        .fail (some src) (curFailValidateReason src.uid) e) := by
  refine ⟨?_, ?_, ?_⟩
  · intro e hl
    unfold loadAssignedConfig Store.current Store.load
    simp only [hcur, hl]
  · intro cp e hl hp
    unfold loadAssignedConfig Store.current Store.load Checkpoint.parse
    simp only [hcur, hl, hp]
  · intro cp c e hl hp hv
    unfold loadAssignedConfig Store.current Store.load Checkpoint.parse
    simp only [hcur, hl, hp, hv]

/-- A store whose `current` checkpoint parses into a configuration that
fails validation. -/
def validateFailStore : Store :=
  { currentRes := .ok (some srcCur)
    lastKnownGoodRes := .ok none
    loadRes := fun uid =>
      if uid = "cur-uid" then .ok ⟨.ok ⟨10, -5⟩⟩ else .error "checkpoint not found"
    currentModifiedRes := .ok 0
    initErr := none
    setLastKnownGoodErr := none }

/-- Witness for C7: the three failure stages at concrete stores, each
yielding its stage reason tagged with the UID `cur-uid`. -/
theorem loadAssignedConfig_failure_reasons_witness :
    loadAssignedConfig exampleValidate doubleFailStore goodLocal =
      .fail (some srcCur) (curFailLoadReason srcCur.uid) "io error" ∧
    loadAssignedConfig exampleValidate parseFailStore goodLocal =
      .fail (some srcCur) (curFailParseReason srcCur.uid) "parse boom" ∧
    loadAssignedConfig exampleValidate validateFailStore goodLocal =
      .fail (some srcCur) (curFailValidateReason srcCur.uid) "payload negative" := by
  refine ⟨?_, ?_, ?_⟩
  · exact (loadAssignedConfig_failure_reasons exampleValidate doubleFailStore
      goodLocal srcCur rfl).1 "io error" rfl
  · exact (loadAssignedConfig_failure_reasons exampleValidate parseFailStore
      goodLocal srcCur rfl).2.1 ⟨.error "parse boom"⟩ "parse boom" (by rfl) rfl
  · exact (loadAssignedConfig_failure_reasons exampleValidate validateFailStore
      goodLocal srcCur rfl).2.2 ⟨.ok ⟨10, -5⟩⟩ ⟨10, -5⟩ "payload negative"
      (by rfl) rfl (by rfl)

/-! ### C9: resolver idempotence -/

/-- C9: `loadAssignedConfig` mutates neither the store nor the controller,
and two consecutive calls with the same pointer and unchanged store contents
(the second call running on the state the first call leaves behind) return
identical results: configuration, source record, reason and error all agree. -/
theorem loadAssignedConfig_idempotent (validate : Validator) (cc : Controller)
    (localCfg : KubeletConfiguration) :
    (loadAssignedConfigS validate cc localCfg).2 = cc ∧
    (loadAssignedConfigS validate (loadAssignedConfigS validate cc localCfg).2 localCfg).1 =
      (loadAssignedConfigS validate cc localCfg).1 :=
  ⟨rfl, rfl⟩

/-! ### C5: pending-change signal coalescing -/

/-- Any number of raises on an already-set slot leaves it set with the one
pending value. -/
theorem raiseN_full (n : Nat) : raiseN n (some true) = some true := by
  induction n with
  | zero => rfl
  | succ m ih => simpa [raiseN, pokePendingSignal] using ih

/-- C5: for every `n ≥ 1`, `n` consecutive raises of the pending-change
signal with no intervening consumption leave exactly one pending value in the
slot; a send onto a full slot is dropped silently (the slot is unchanged and
the send returns); a consume always empties the slot; consuming the raised
slot reports a pending value, and an empty slot is never read as pending. -/
theorem pending_signal_coalescing (n : Nat) (hn : 1 ≤ n) :
    raiseN n none = some true ∧
    (∀ v, pokePendingSignal (some v) = some v) ∧
    consumePendingSignal (raiseN n none) = (none, true) ∧
    (∀ s, (consumePendingSignal s).1 = none) ∧
    consumePendingSignal none = (none, false) := by
  have hset : raiseN n none = some true := by
    cases n with
    | zero => exact absurd hn (by decide)
    | succ m =>
      have : raiseN (m + 1) none = raiseN m (some true) := rfl
      rw [this]
      exact raiseN_full m
  refine ⟨hset, fun v => rfl, by rw [hset]; rfl, fun s => ?_, rfl⟩
  cases s <;> rfl

/-- Witness for C5 at `n = 3`. -/
theorem pending_signal_coalescing_witness :
    1 ≤ 3 ∧ raiseN 3 none = some true ∧
    consumePendingSignal (raiseN 3 none) = (none, true) :=
  ⟨by decide, (pending_signal_coalescing 3 (by decide)).1,
   (pending_signal_coalescing 3 (by decide)).2.2.1⟩

end KubeletConfig
